import Mathlib

/-!
Verification of the order lifecycle and payment reconciliation subsystem of the
kiddie-kingdom e-commerce backend.

The development shallowly embeds the TypeScript sources:
* `src/modules/order/services/order.service.ts` (`OrderService.create`,
  `cancelOrder`, `cancelCashOnDeliveryOrder`),
* `src/modules/order/services/payment.service.ts`
  (`createVnpayPaymentUrl`, `sortObject`, `handleVnpayReturn`),
* the `OrderSchema.pre('save')` recompute hook of the order schema.

Mongo documents become Lean structures, the service methods become pure
functions threading an explicit state, and fallible paths return
`Except String`.  The collaborators whose sources are not part of the snapshot
(`ProductService.updateVariantStockOnOrder`, `VoucherService`) are modelled
from the specification; each such definition is marked `Modelled from the
spec:` in its doc comment.
-/

namespace KiddieKingdom

/-- Payment status enum (`PENDING`, `COMPLETED`, `FAILED`), shared by the order
document and the payment-history ledger. -/
inductive PaymentStatus
  | PENDING
  | COMPLETED
  | FAILED
  deriving DecidableEq, Repr

/-- Shipping status enum (`PENDING`, `SHIPPED`, `DELIVERED`, `CANCELED`). -/
inductive ShippingStatus
  | PENDING
  | SHIPPED
  | DELIVERED
  | CANCELED
  deriving DecidableEq, Repr

/-- `PAYMENT_METHOD` enum. -/
inductive PaymentMethod
  | CASH_ON_DELIVERY
  | ONLINE_PAYMENT
  deriving DecidableEq, Repr

/-- `OrderStatus` of the older order-schema generation, still used by
`payment.service.ts` (`TO_PAY`, `COMPLETED`, `CANCELED`, `REFUND`,
`EXPIRED`). -/
inductive OrderStatus
  | TO_PAY
  | COMPLETED
  | CANCELED
  | REFUND
  | EXPIRED
  deriving DecidableEq, Repr

/-- A product variant, with the fields `order.service.ts` reads: `_id`,
`price` (which the source treats as possibly missing), `quantity`, `sku`.
Ids are abstract naturals. -/
structure Variant where
  vid : Nat
  price : Option Nat
  quantity : Nat
  sku : Option String
  deriving DecidableEq, Repr

/-- A product with its purchasable variants. -/
structure Product where
  pid : Nat
  name : String
  variants : List Variant
  deriving DecidableEq, Repr

/-- The per-variant quantity change: debit (`isOrderCreation = true`)
decrements, credit increments. -/
def adjVariant (qty : Nat) (isOrderCreation : Bool) (v : Variant) : Variant :=
  { v with quantity := if isOrderCreation then v.quantity - qty else v.quantity + qty }

/-- Stock adjustment applied to one product: when it is the addressed
product, the addressed variant's quantity is adjusted. -/
def adjustOneProduct (productId variantId qty : Nat) (isOrderCreation : Bool)
    (p : Product) : Product :=
  if p.pid == productId then
    { p with variants := p.variants.map (fun v =>
        if v.vid == variantId then adjVariant qty isOrderCreation v else v) }
  else p

/-- Pointwise stock adjustment of one `(productId, variantId)` pair in the
product collection. -/
def adjustProducts (products : List Product) (productId variantId qty : Nat)
    (isOrderCreation : Bool) : List Product :=
  products.map (adjustOneProduct productId variantId qty isOrderCreation)

/-- Modelled from the spec: `ProductService.updateVariantStockOnOrder` is not
in the snapshot (only its call sites are).  Spec §4.1/§6: `adjustVariantStock`
decrements the variant quantity when `isOrderCreation` is true and increments
it when restoring on cancellation; as an independent collaborator call it may
fail (e.g. a database error), modelled by the environment-supplied set
`failing` of `(productId, variantId)` pairs whose adjustment fails. -/
def updateVariantStockOnOrder (failing : List (Nat × Nat)) (products : List Product)
    (productId variantId qty : Nat) (isOrderCreation : Bool) :
    Except String (List Product) :=
  if (productId, variantId) ∈ failing then
    .error "stock adjustment failed"
  else
    .ok (adjustProducts products productId variantId qty isOrderCreation)

/-- Look up a variant through its product. -/
def findVariant (products : List Product) (pid vid : Nat) : Option Variant :=
  match products.find? (fun p => p.pid == pid) with
  | none => none
  | some p => p.variants.find? (fun v => v.vid == vid)

/-- Observed stock quantity of a variant (0 when absent). -/
def variantQty (products : List Product) (pid vid : Nat) : Nat :=
  ((findVariant products pid vid).map Variant.quantity).getD 0

/-- A resolved order line as embedded in the order document (`orderItems`
entries built at `order.service.ts` lines 112-119). -/
structure OrderItem where
  productId : Nat
  variantId : Option Nat
  quantity : Nat
  price : Nat
  productName : String
  deriving DecidableEq, Repr

/-- The stock-adjustment loop shared (identically, up to the direction flag and
the handling of a raised error) by `create` (lines 210-225), `cancelOrder`
(lines 394-409) and `cancelCashOnDeliveryOrder` (lines 463-480): items are
processed in order, an item without a `variantId` is skipped by the
`if (item.productId && item.variantId)` guard, and the first failing
adjustment aborts the loop.  On failure the products adjusted so far are kept
(each adjustment is persisted independently); the error value carries that
intermediate product state. -/
def adjustOrderItems (failing : List (Nat × Nat)) (products : List Product)
    (items : List OrderItem) (isOrderCreation : Bool) :
    Except (List Product × String) (List Product) :=
  match items with
  | [] => .ok products
  | item :: rest =>
    match item.variantId with
    | none => adjustOrderItems failing products rest isOrderCreation
    | some vid =>
      match updateVariantStockOnOrder failing products item.productId vid
          item.quantity isOrderCreation with
      | .error e => .error (products, e)
      | .ok products2 => adjustOrderItems failing products2 rest isOrderCreation

/-- Voucher type enum (`PERCENTAGE`, `FIXED`). -/
inductive VoucherType
  | PERCENTAGE
  | FIXED
  deriving DecidableEq, Repr

/-- Voucher document (the voucher schema is not in the snapshot; fields per
spec §3).  The validity window and the usage cap are abstracted to the
Booleans `expired` and `exhausted` as observed at the call. -/
structure Voucher where
  vid : Nat
  code : String
  name : String
  vtype : VoucherType
  value : Nat
  minOrderValue : Nat
  maxDiscountValue : Nat
  expired : Bool
  exhausted : Bool
  usedCount : Nat
  deriving DecidableEq, Repr

/-- Result of voucher verification, as consumed by `OrderService.create`. -/
structure VerifyVoucherResult where
  valid : Bool
  message : String
  discountAmount : Nat
  voucher : Option Voucher
  deriving DecidableEq, Repr

/-- Modelled from the spec: `VoucherService.verifyVoucherByCode` is not in the
snapshot.  Spec §4.2: valid = (not expired) AND (not exhausted) AND
(subtotal ≥ minOrderValue); discountAmount: PERCENTAGE →
min(subtotal × value / 100, maxDiscountValue); FIXED → min(value, subtotal). -/
def verifyVoucherByCode (vouchers : List Voucher) (code : String) (subtotal : Nat) :
    VerifyVoucherResult :=
  match vouchers.find? (fun v => v.code == code) with
  | none =>
    { valid := false, message := "Voucher not found", discountAmount := 0, voucher := none }
  | some v =>
    if v.expired then
      { valid := false, message := "Voucher has expired", discountAmount := 0, voucher := none }
    else if v.exhausted then
      { valid := false, message := "Voucher usage limit reached", discountAmount := 0,
        voucher := none }
    else if subtotal < v.minOrderValue then
      { valid := false, message := "Order value below voucher minimum", discountAmount := 0,
        voucher := none }
    else
      let d :=
        match v.vtype with
        | .PERCENTAGE => min (subtotal * v.value / 100) v.maxDiscountValue
        | .FIXED => min v.value subtotal
      { valid := true, message := "", discountAmount := d, voucher := some v }

/-- Modelled from the spec: `VoucherService.applyVoucherById` is not in the
snapshot.  Spec §4.2: `apply(voucherId)` increments the voucher's usage
counter. -/
def applyVoucherById (vouchers : List Voucher) (vid : Nat) : List Voucher :=
  vouchers.map (fun v => if v.vid == vid then { v with usedCount := v.usedCount + 1 } else v)

/-- One requested order line of `CreateOrderDto` (`create-order.dto.ts`):
a product id, an optional variant id and a quantity.  Note the DTO carries no
client-side price or total. -/
structure OrderItemDto where
  productId : Nat
  variantId : Option Nat
  quantity : Nat
  deriving DecidableEq, Repr

/-- Shipping address snapshot copied field by field at `order.service.ts`
lines 189-198. -/
structure ShippingAddress where
  fullName : String
  phone : String
  addressLine1 : String
  addressLine2 : String
  city : String
  district : String
  ward : String
  postalCode : String
  deriving DecidableEq, Repr

/-- `CreateOrderDto`: the full checkout input.  It has no field for a total
or a discount; those are always computed server-side. -/
structure CreateOrderDto where
  items : List OrderItemDto
  paymentMethod : PaymentMethod
  shippingAddress : ShippingAddress
  voucherId : Option Nat
  deriving DecidableEq, Repr

/-- Per-item validation and price resolution performed by
`OrderService.create` (`order.service.ts` lines 47-128).  ObjectId format
validation is not modelled (ids are abstract naturals, so every id is well
formed).  In the specific-variant branch the source assigns `variant.price`
without a presence guard (a missing price would surface as `undefined`);
that unguarded read is rendered as `getD 0`. -/
def resolveOrderItem (products : List Product) (item : OrderItemDto) :
    Except String OrderItem :=
  match products.find? (fun p => p.pid == item.productId) with
  | none => .error ("Product with ID " ++ toString item.productId ++ " not found")
  | some product =>
    if product.variants.isEmpty then
      .error ("Product " ++ product.name ++ " has no variants")
    else
      match item.variantId with
      | some vid =>
        match product.variants.find? (fun v => v.vid == vid) with
        | none => .error ("Variant with ID " ++ toString vid ++ " not found")
        | some variant =>
          if variant.quantity < item.quantity then
            .error ("Product " ++ product.name ++ " (variant " ++
              variant.sku.getD "unknown" ++ ") is out of stock")
          else
            .ok { productId := item.productId, variantId := some vid,
                  quantity := item.quantity, price := variant.price.getD 0,
                  productName := product.name }
      | none =>
        let totalVariantQuantity := product.variants.foldl (fun total v => total + v.quantity) 0
        if totalVariantQuantity < item.quantity then
          .error ("Product " ++ product.name ++ " is out of stock")
        else
          match product.variants.filterMap (fun v => v.price) with
          | [] => .error ("Product " ++ product.name ++ " has no valid price")
          | p :: ps =>
            .ok { productId := item.productId, variantId := none,
                  quantity := item.quantity, price := ps.foldl min p,
                  productName := product.name }

/-- Sequential rendering of the `Promise.all` over `items.map(...)` in
`create`: items are validated in order and the first failing item determines
the error surfaced. -/
def resolveOrderItems (products : List Product) (items : List OrderItemDto) :
    Except String (List OrderItem) :=
  match items with
  | [] => .ok []
  | item :: rest =>
    match resolveOrderItem products item with
    | .error e => .error e
    | .ok r =>
      match resolveOrderItems products rest with
      | .error e => .error e
      | .ok rs => .ok (r :: rs)

/-- `items.reduce((total, item) => total + item.price * item.quantity, 0)`. -/
def subtotalOf (items : List OrderItem) : Nat :=
  items.foldl (fun total item => total + item.price * item.quantity) 0

/-- Order document with the fields written by the current
`OrderService.create` (paymentStatus/shippingStatus generation).  `oid` stands
for the Mongo `_id`. -/
structure OrderDoc where
  oid : Nat
  userId : Nat
  orderCode : String
  items : List OrderItem
  paymentMethod : PaymentMethod
  shippingAddress : ShippingAddress
  voucherId : Option Nat
  paymentStatus : PaymentStatus
  shippingStatus : ShippingStatus
  totalAmount : Nat
  discountAmount : Nat
  cancelledAt : Option Nat
  cancelledReason : Option String
  deriving DecidableEq, Repr

/-- The `OrderSchema.pre('save')` recompute hook (order schema, lines 96-107):
on every save, `totalAmount` is recomputed as `max(0, subtotal −
discountAmount)` from the document's own items, and forced to `0` when the
document has no items.  (`Nat` subtraction is exactly `max(0, a − b)`.) -/
def applySaveHook (doc : OrderDoc) : OrderDoc :=
  if doc.items.isEmpty then { doc with totalAmount := 0 }
  else { doc with totalAmount := subtotalOf doc.items - doc.discountAmount }

/-- The persistent state `OrderService` reads and writes: the product,
voucher and order collections. -/
structure OrderState where
  products : List Product
  vouchers : List Voucher
  orders : List OrderDoc
  deriving DecidableEq, Repr

/-- Environment of one `create` call: the generated order code and fresh id,
the clock, whether `order.save()` rejects, and which stock adjustments fail. -/
structure CreateEnv where
  orderCode : String
  newOrderId : Nat
  now : Nat
  saveFails : Bool
  stockFailing : List (Nat × Nat)
  deriving DecidableEq, Repr

/-- The voucher handling of `create` (`order.service.ts` lines 134-171):
no voucher means no discount; otherwise look the voucher up by id, verify it
against the subtotal, take the discount amount, and apply (consume) the
voucher.  Returns the discount together with the updated voucher
collection. -/
def voucherStep (vouchers : List Voucher) (voucherId : Option Nat) (subtotal : Nat) :
    Except String (Nat × List Voucher) :=
  match voucherId with
  | none => .ok (0, vouchers)
  | some vid =>
    match vouchers.find? (fun v => v.vid == vid) with
    | none => .error "Voucher not found"
    | some voucher =>
      let verifyResult := verifyVoucherByCode vouchers voucher.code subtotal
      if !verifyResult.valid then
        .error ("Voucher validation failed: " ++ verifyResult.message)
      else
        .ok (verifyResult.discountAmount, applyVoucherById vouchers vid)

/-- The body of `create`'s outer `try` (`order.service.ts` lines 130-257),
run after item resolution succeeded: voucher handling, totals, document
construction, `order.save()` and the best-effort stock debit.  Note the order
of effects: the voucher is consumed before the save, and a failing save does
not undo the consumption. -/
def createOrderCore (env : CreateEnv) (st : OrderState) (dto : CreateOrderDto)
    (userId : Nat) (orderItems : List OrderItem) : OrderState × Except String OrderDoc :=
  match voucherStep st.vouchers dto.voucherId (subtotalOf orderItems) with
  | .error e => (st, .error ("Failed to create order: " ++ e))
  | .ok (discountAmount, vouchers2) =>
    let totalAmount := subtotalOf orderItems - discountAmount
    let doc : OrderDoc :=
      { oid := env.newOrderId, userId := userId, orderCode := env.orderCode,
        items := orderItems, paymentMethod := dto.paymentMethod,
        shippingAddress := dto.shippingAddress, voucherId := dto.voucherId,
        paymentStatus := .PENDING, shippingStatus := .PENDING,
        totalAmount := totalAmount, discountAmount := discountAmount,
        cancelledAt := none, cancelledReason := none }
    let st2 := { st with vouchers := vouchers2 }
    if env.saveFails then
      (st2, .error "Failed to create order: save failed")
    else
      let saved := applySaveHook doc
      let st3 := { st2 with orders := st2.orders ++ [saved] }
      let products2 :=
        match adjustOrderItems env.stockFailing st3.products orderItems true with
        | .ok ps => ps
        | .error (ps, _) => ps
      ({ st3 with products := products2 }, .ok saved)

/-- `OrderService.create` (`order.service.ts` lines 43-258) as a state
transformer, returning the final persistent state with the result.  Errors
raised inside the outer `try` (voucher handling, save) are rethrown as
`Failed to create order: ...`; item-resolution errors surface unwrapped.
The stock debit after persistence is best-effort: a failure is logged and the
creation proceeds with the adjustments already made.  The online-payment
session step (which touches only the payment-history ledger, embedded
separately below) is not replayed here. -/
def createOrder (env : CreateEnv) (st : OrderState) (dto : CreateOrderDto) (userId : Nat) :
    OrderState × Except String OrderDoc :=
  match resolveOrderItems st.products dto.items with
  | .error e => (st, .error e)
  | .ok orderItems => createOrderCore env st dto userId orderItems

/-- `this.orderModel.findOne({ _id, userId })`: the order must exist and
belong to the caller. -/
def findUserOrder (orders : List OrderDoc) (oid userId : Nat) : Option OrderDoc :=
  orders.find? (fun o => o.oid == oid && o.userId == userId)

/-- `order.save()` on an existing document: replace it in the collection,
applying the pre-save recompute hook. -/
def saveOrder (orders : List OrderDoc) (doc : OrderDoc) : List OrderDoc :=
  orders.map (fun o => if o.oid == doc.oid then applySaveHook doc else o)

/-- `OrderService.cancelOrder` (`order.service.ts` lines 376-412).  Stock
restoration is best-effort: a failure is caught, logged, and the cancellation
still saves the order. -/
def cancelOrder (stockFailing : List (Nat × Nat)) (st : OrderState) (oid userId : Nat) :
    OrderState × Except String OrderDoc :=
  match findUserOrder st.orders oid userId with
  | none => (st, .error "Order not found")
  | some order =>
    if order.paymentStatus ≠ PaymentStatus.PENDING then
      (st, .error "Cannot cancel order in current payment status")
    else
      let order2 := { order with
        paymentStatus := PaymentStatus.FAILED
        shippingStatus := ShippingStatus.CANCELED }
      let products2 :=
        match adjustOrderItems stockFailing st.products order2.items false with
        | .ok ps => ps
        | .error (ps, _) => ps
      ({ st with products := products2, orders := saveOrder st.orders order2 },
       .ok (applySaveHook order2))

/-- `OrderService.cancelCashOnDeliveryOrder` (`order.service.ts` lines
435-483).  Here a stock-restoration failure is rethrown as an
`InternalServerErrorException` before `order.save()` is reached, so the order
document is not saved; the stock adjustments already persisted are kept. -/
def cancelCashOnDeliveryOrder (stockFailing : List (Nat × Nat)) (now : Nat)
    (st : OrderState) (oid userId : Nat) (cancelledReason : Option String) :
    OrderState × Except String OrderDoc :=
  match findUserOrder st.orders oid userId with
  | none => (st, .error "Order not found")
  | some order =>
    if order.paymentMethod ≠ PaymentMethod.CASH_ON_DELIVERY then
      (st, .error "Only Cash on Delivery orders can be canceled")
    else if order.paymentStatus ≠ PaymentStatus.PENDING then
      (st, .error "Cannot cancel order in current payment status")
    else if order.shippingStatus ≠ ShippingStatus.PENDING then
      (st, .error "Only orders with PENDING shipping status can be canceled")
    else
      let order2 := { order with
        shippingStatus := ShippingStatus.CANCELED
        cancelledAt := some now
        cancelledReason := cancelledReason }
      match adjustOrderItems stockFailing st.products order2.items false with
      | .error (ps, e) =>
        ({ st with products := ps },
         .error ("Failed to restore product quantities: " ++ e))
      | .ok ps =>
        ({ st with products := ps, orders := saveOrder st.orders order2 },
         .ok (applySaveHook order2))

/-- Order document as read and written by `payment.service.ts` (the older
schema generation: `status : OrderStatus`, `orderNumber`, `paidAt`).  The
Mongo `_id` is kept as the string `oidStr`, because `handleVnpayReturn`
recovers it by splitting the transaction reference. -/
structure POrder where
  oidStr : String
  userId : Nat
  status : OrderStatus
  paymentMethod : PaymentMethod
  totalAmount : Nat
  orderNumber : String
  paidAt : Option Nat
  deriving DecidableEq, Repr

/-- Provider-specific payment details bag, with the fields
`payment.service.ts` writes. -/
structure PaymentDetails where
  orderId : Option String
  orderInfo : Option String
  transactionNo : Option String
  bankCode : Option String
  cardType : Option String
  payDate : Option String
  deriving DecidableEq, Repr

/-- `PaymentHistory` ledger document (schema not in the snapshot; fields as
written by `payment.service.ts` and described in spec §3). -/
structure PaymentHistoryDoc where
  orderId : String
  userId : Nat
  amount : Nat
  status : PaymentStatus
  transactionId : String
  paymentDetails : PaymentDetails
  completedAt : Option Nat
  failureReason : Option String
  deriving DecidableEq, Repr

/-- State touched by the callback reconciliation: the payment-history ledger,
the order collection, and a counter of confirmation-email attempts (the
`emailService.sendOrderConfirmationEmail` collaborator). -/
structure ReconState where
  histories : List PaymentHistoryDoc
  orders : List POrder
  emailsSent : Nat
  deriving DecidableEq, Repr

/-- VNPay gateway configuration (tmnCode, hashSecret, gateway URL,
return URL), read from the environment at startup. -/
structure VnpayConfig where
  tmnCode : String
  hashSecret : String
  url : String
  returnUrl : String
  deriving DecidableEq, Repr

/-- Lexicographic comparison of character sequences by code point, matching
how JS `Array.prototype.sort`'s default comparator orders the (ASCII) VNPay
parameter keys. -/
def charListLe : List Char → List Char → Bool
  | [], _ => true
  | _ :: _, [] => false
  | a :: as, b :: bs =>
    if a.toNat < b.toNat then true
    else if b.toNat < a.toNat then false
    else charListLe as bs

/-- `a <= b` on strings as JS compares the sorted keys. -/
def strLe (a b : String) : Bool :=
  charListLe a.data b.data

/-- Insert one parameter into a key-sorted parameter list. -/
def insertSorted (kv : String × String) : List (String × String) → List (String × String)
  | [] => [kv]
  | x :: xs => if strLe kv.1 x.1 then kv :: x :: xs else x :: insertSorted kv xs

/-- `PaymentService.sortObject` (lines 151-162): parameters re-keyed in
ascending key order (null/undefined entries dropped; all values here are
present strings).  Rendered as an insertion sort; `Object.keys(...).sort()`
agrees with it on the unique-key parameter objects this service builds. -/
def sortObject (params : List (String × String)) : List (String × String) :=
  match params with
  | [] => []
  | x :: xs => insertSorted x (sortObject xs)

/-- The sign data of `createVnpayPaymentUrl` (lines 139-141):
`Object.entries(sortedParams).map(([key, value]) => key + '=' + value)
.join('&')` — raw pairs, with no URL encoding. -/
def rawSignData (params : List (String × String)) : String :=
  String.intercalate "&" (params.map (fun kv => kv.1 ++ "=" ++ kv.2))

/-- Uppercase hexadecimal digit. -/
def hexDigit (n : Nat) : Char :=
  if n < 10 then Char.ofNat (48 + n) else Char.ofNat (55 + n)

/-- `%XX` percent-encoding of one byte, uppercase hex. -/
def percentByte (b : Nat) : String :=
  String.mk [Char.ofNat 37, hexDigit (b / 16), hexDigit (b % 16)]

/-- The characters Node's `querystring.escape` leaves unescaped:
alphanumerics and `- _ . ! ~ * ' ( )` (the `encodeURIComponent` set). -/
def isUnescapedChar (c : Char) : Bool :=
  (48 ≤ c.toNat && c.toNat ≤ 57) || (65 ≤ c.toNat && c.toNat ≤ 90) ||
  (97 ≤ c.toNat && c.toNat ≤ 122) ||
  c == Char.ofNat 45 || c == Char.ofNat 95 || c == Char.ofNat 46 ||
  c == Char.ofNat 33 || c == Char.ofNat 126 || c == Char.ofNat 42 ||
  c == Char.ofNat 39 || c == Char.ofNat 40 || c == Char.ofNat 41

/-- UTF-8 bytes of one character. -/
def utf8Bytes (c : Char) : List Nat :=
  let n := c.toNat
  if n < 128 then [n]
  else if n < 2048 then [192 + n / 64, 128 + n % 64]
  else if n < 65536 then [224 + n / 4096, 128 + (n / 64) % 64, 128 + n % 64]
  else [240 + n / 262144, 128 + (n / 4096) % 64, 128 + (n / 64) % 64, 128 + n % 64]

/-- Node `querystring.escape`: percent-encode every character outside the
unescaped set. -/
def qsEscape (s : String) : String :=
  String.join (s.toList.map (fun c =>
    if isUnescapedChar c then String.mk [c]
    else String.join ((utf8Bytes c).map percentByte)))

/-- Node `querystring.stringify`: URL-escaped `key=value` pairs joined with
`&`.  This is the serialization `handleVnpayReturn` recomputes its signature
over (line 177), and the one used for the final redirect URL (line 148). -/
def qsStringify (params : List (String × String)) : String :=
  String.intercalate "&" (params.map (fun kv => qsEscape kv.1 ++ "=" ++ qsEscape kv.2))

/-- The parameter set built by `createVnpayPaymentUrl` (lines 106-133).
`bankCode` is the empty string, so `vnp_BankCode` is not added; the
transaction reference is `createDate_orderId`; the amount is
`Math.round(totalAmount * 100)`. -/
def vnpayParams (cfg : VnpayConfig) (order : POrder) (createDate : String) :
    List (String × String) :=
  [("vnp_Version", "2.1.0"),
   ("vnp_Command", "pay"),
   ("vnp_TmnCode", cfg.tmnCode),
   ("vnp_Locale", "vn"),
   ("vnp_CurrCode", "VND"),
   ("vnp_TxnRef", createDate ++ "_" ++ order.oidStr),
   ("vnp_OrderInfo", "Payment for order " ++ order.orderNumber),
   ("vnp_OrderType", "billpayment"),
   ("vnp_Amount", toString (order.totalAmount * 100)),
   ("vnp_ReturnUrl", cfg.returnUrl),
   ("vnp_IpAddr", "127.0.0.1"),
   ("vnp_CreateDate", createDate)]

/-- `PaymentService.createVnpayPaymentUrl` (lines 100-149), parametric in the
HMAC-SHA512 implementation `hmac secret message`.  Returns the sorted signed
parameter set (what the gateway receives, and echoes back to the return
handler after its own URL decoding) together with the redirect URL. -/
def createVnpayPaymentUrl (hmac : String → String → String) (cfg : VnpayConfig)
    (order : POrder) (createDate : String) : List (String × String) × String :=
  let sorted := sortObject (vnpayParams cfg order createDate)
  let signed := hmac cfg.hashSecret (rawSignData sorted)
  let final := sorted ++ [("vnp_SecureHash", signed)]
  (final, cfg.url ++ "?" ++ qsStringify final)

/-- First value bound to a key in a query parameter list. -/
def lookupParam (params : List (String × String)) (k : String) : Option String :=
  (params.find? (fun kv => kv.1 == k)).map Prod.snd

/-- `delete vnpParams[k]`. -/
def removeParam (params : List (String × String)) (k : String) :
    List (String × String) :=
  params.filter (fun kv => kv.1 != k)

/-- Splitting a character list on a separator character, JS
`String.prototype.split` style (`"a_b_c" → ["a","b","c"]`, keeping empty
segments). -/
def splitCharsAux (sep : Char) : List Char → List Char → List String
  | [], acc => [String.mk acc.reverse]
  | c :: cs, acc =>
    if c == sep then String.mk acc.reverse :: splitCharsAux sep cs []
    else splitCharsAux sep cs (c :: acc)

/-- JS `s.split(sep)` for a one-character separator, as used by
`txnRef.split('_')`. -/
def jsSplit (s : String) (sep : Char) : List String :=
  splitCharsAux sep s.data []

/-- `delete vnpParams['vnp_SecureHash']; delete vnpParams['vnp_SecureHashType']`
(lines 170-171). -/
def strippedParams (query : List (String × String)) : List (String × String) :=
  removeParam (removeParam query "vnp_SecureHash") "vnp_SecureHashType"

/-- Result object of `handleVnpayReturn`. -/
structure VnpayReturnResult where
  success : Bool
  redirectUrl : String
  message : String
  deriving DecidableEq, Repr

/-- `paymentHistory.save()`: update the single document `findOne` matched
(the first with this `orderId`). -/
def replaceFirstHistory (histories : List PaymentHistoryDoc) (orderId : String)
    (doc : PaymentHistoryDoc) : List PaymentHistoryDoc :=
  match histories with
  | [] => []
  | h :: rest =>
    if h.orderId == orderId then doc :: rest
    else h :: replaceFirstHistory rest orderId doc

/-- The FAILED ledger record written by the failure branch of the return
handler: status FAILED and a failure reason naming the gateway code. -/
def failedHistory (ph : PaymentHistoryDoc) (rc : String) : PaymentHistoryDoc :=
  { ph with status := PaymentStatus.FAILED, failureReason := some ("VNPay error code: " ++ rc) }

/-- The reconciliation step of `handleVnpayReturn` after signature
verification (lines 186-261): the payment history is looked up by `orderId`
alone (no transactionId, no status filter), then the handler branches on the
response code.  On `"00"` it marks the record COMPLETED, merges provider
details, marks the order COMPLETED with `paidAt`, and attempts the
confirmation email (counted in `emailsSent`; an email failure is only
logged).  On any other code it marks the record FAILED with a reason and
touches nothing else.  `now` models `new Date()`. -/
def reconcileVnpayReturn (frontendUrl : String) (now : Nat) (st : ReconState)
    (params : List (String × String)) (orderId : String)
    (responseCode : Option String) : ReconState × Except String VnpayReturnResult :=
  match st.histories.find? (fun h => h.orderId == orderId) with
  | none => (st, .error "Payment record not found")
  | some ph =>
    if responseCode == some "00" then
      let ph2 := { ph with
        status := PaymentStatus.COMPLETED
        completedAt := some now
        paymentDetails := { ph.paymentDetails with
          transactionNo := lookupParam params "vnp_TransactionNo"
          bankCode := lookupParam params "vnp_BankCode"
          cardType := lookupParam params "vnp_CardType"
          payDate := lookupParam params "vnp_PayDate" } }
      let histories2 := replaceFirstHistory st.histories orderId ph2
      let okResult : VnpayReturnResult :=
        { success := true
          redirectUrl := frontendUrl ++ "/payment/success?orderId=" ++ orderId
          message := "Payment successful" }
      match st.orders.find? (fun o => o.oidStr == orderId) with
      | some order =>
        let order2 := { order with status := OrderStatus.COMPLETED, paidAt := some now }
        let orders2 := st.orders.map (fun o => if o.oidStr == orderId then order2 else o)
        ({ histories := histories2, orders := orders2, emailsSent := st.emailsSent + 1 },
         .ok okResult)
      | none =>
        ({ st with histories := histories2 }, .ok okResult)
    else
      let rc := match responseCode with | some c => c | none => "undefined"
      let ph2 := { ph with
        status := PaymentStatus.FAILED
        failureReason := some ("VNPay error code: " ++ rc) }
      ({ st with histories := replaceFirstHistory st.histories orderId ph2 },
       .ok { success := false
             redirectUrl := frontendUrl ++ "/payment/cancel?orderId=" ++ orderId
             message := "Payment failed" })

/-- `PaymentService.handleVnpayReturn` (lines 164-266): extract the provided
hash, drop the hash keys, sort the remaining parameters, recompute the
HMAC-SHA512 over the `querystring.stringify` serialization, and compare.
Mismatch (or a missing hash) fails before any state is touched.  On match the
order id is the second `_`-separated field of `vnp_TxnRef`, and reconciliation
proceeds.  All raised errors are rethrown by the outer catch as
`Payment verification failed: ...`. -/
def handleVnpayReturn (hmac : String → String → String) (cfg : VnpayConfig)
    (frontendUrl : String) (now : Nat) (st : ReconState)
    (query : List (String × String)) : ReconState × Except String VnpayReturnResult :=
  let secureHash := lookupParam query "vnp_SecureHash"
  let params := strippedParams query
  let sorted := sortObject params
  let signData := qsStringify sorted
  let signed := hmac cfg.hashSecret signData
  if secureHash ≠ some signed then
    (st, .error "Payment verification failed: Invalid signature")
  else
    match lookupParam params "vnp_TxnRef" with
    | none => (st, .error "Payment verification failed: missing transaction reference")
    | some txnRef =>
      match (jsSplit txnRef '_').get? 1 with
      | none => (st, .error "Payment verification failed: malformed transaction reference")
      | some orderId =>
        match reconcileVnpayReturn frontendUrl now st params orderId
            (lookupParam params "vnp_ResponseCode") with
        | (st2, .error e) => (st2, .error ("Payment verification failed: " ++ e))
        | (st2, .ok r) => (st2, .ok r)

/-- Guard under which `processPayment` / `createPaymentSession` will issue a
new redirect URL for an existing order (`payment.service.ts` lines 63-69):
the order must still be payable and set for online payment. -/
def processPaymentAllowed (order : POrder) : Bool :=
  order.status == OrderStatus.TO_PAY && order.paymentMethod == PaymentMethod.ONLINE_PAYMENT

/-- The `(productId, variantId)` key of an order item, when it names a
variant. -/
def itemKey (item : OrderItem) : Option (Nat × Nat) :=
  item.variantId.map (fun vid => (item.productId, vid))

/-- Usage counter of a voucher in the collection (0 when absent). -/
def voucherUsedCount (vouchers : List Voucher) (vid : Nat) : Nat :=
  ((vouchers.find? (fun v => v.vid == vid)).map Voucher.usedCount).getD 0

/-! Concrete fixtures used by the witness theorems and the concrete
counterexample runs (the spec §8 example: variant A price 100 stock 5,
variant B price 50 stock 1, FIXED voucher of 30). -/

/-- Fixture: variant A, price 100, stock 5. -/
def wVarA : Variant := ⟨1, some 100, 5, some "A"⟩

/-- Fixture: variant B, price 50, stock 1. -/
def wVarB : Variant := ⟨2, some 50, 1, some "B"⟩

/-- Fixture: product 10 with variant A. -/
def wProdA : Product := ⟨10, "Teddy", [wVarA]⟩

/-- Fixture: product 11 with variant B. -/
def wProdB : Product := ⟨11, "Car", [wVarB]⟩

/-- Fixture: a valid FIXED voucher of 30. -/
def wVoucher : Voucher := ⟨5, "FIX30", "Fixed 30", .FIXED, 30, 0, 1000, false, false, 0⟩

/-- Fixture: shipping address. -/
def wAddr : ShippingAddress := ⟨"N", "p", "a", "b", "c", "d", "w", "z"⟩

/-- Fixture: initial order-service state. -/
def wSt0 : OrderState := ⟨[wProdA, wProdB], [wVoucher], []⟩

/-- Fixture: environment for a clean `create` call. -/
def wEnv : CreateEnv := ⟨"ORD-1", 0, 0, false, []⟩

/-- Fixture: environment in which `order.save()` rejects. -/
def wEnvSave : CreateEnv := ⟨"ORD-1", 0, 0, true, []⟩

/-- Fixture: the spec §8 checkout (2 of variant A, 1 of variant B, the FIXED
voucher). -/
def wDto : CreateOrderDto :=
  ⟨[⟨10, some 1, 2⟩, ⟨11, some 2, 1⟩], .CASH_ON_DELIVERY, wAddr, some 5⟩

/-- Fixture: checkout asking for 9 of variant A (stock 5). -/
def wDtoBad : CreateOrderDto := ⟨[⟨10, some 1, 9⟩], .CASH_ON_DELIVERY, wAddr, none⟩

/-- Fixture: the order created from `wDto` (the result of the clean run). -/
def wCreated : OrderState × Except String OrderDoc := createOrder wEnv wSt0 wDto 42

/-- Fixture: product with two variants, no variant selected in the request. -/
def wProdC : Product := ⟨12, "Duo", [wVarA, wVarB]⟩

/-- Fixture: product with no variants at all. -/
def wProdEmpty : Product := ⟨13, "Empty", []⟩

/-- Fixture: the order document the clean run persists. -/
def wDoc : OrderDoc :=
  { oid := 0
    userId := 42
    orderCode := "ORD-1"
    items := [⟨10, some 1, 2, 100, "Teddy"⟩, ⟨11, some 2, 1, 50, "Car"⟩]
    paymentMethod := .CASH_ON_DELIVERY
    shippingAddress := wAddr
    voucherId := some 5
    paymentStatus := .PENDING
    shippingStatus := .PENDING
    totalAmount := 220
    discountAmount := 30
    cancelledAt := none
    cancelledReason := none }

/-- Fixture: a concrete stand-in for HMAC-SHA512 (the reconciliation logic is
parametric in the HMAC; any function of secret and message exercises it). -/
def wHmac (secret message : String) : String := secret ++ "#" ++ message

/-- Fixture: VNPay configuration with the source's default return URL. -/
def wCfg : VnpayConfig :=
  ⟨"DEMO", "secret", "https://sandbox.vnpayment.vn/paymentv2/vpcpay.html",
   "http://localhost:3000/api/payments/vnpay-return"⟩

/-- Fixture: a pending payment-history record for order `"abc"`. -/
def wHist : PaymentHistoryDoc :=
  ⟨"abc", 42, 220, .PENDING, "t_abc", ⟨none, none, none, none, none, none⟩, none, none⟩

/-- Fixture: the matching payable order. -/
def wPOrder : POrder := ⟨"abc", 42, .TO_PAY, .ONLINE_PAYMENT, 220, "ORD-1", none⟩

/-- Fixture: reconciliation state with one PENDING attempt and one payable
order. -/
def wRst : ReconState := ⟨[wHist], [wPOrder], 0⟩

/-- Fixture: the payload of a successful gateway callback (before signing). -/
def wQok : List (String × String) :=
  [("vnp_TxnRef", "20250101120000_abc"), ("vnp_ResponseCode", "00")]

/-- Fixture: the successful callback, signed the way `handleVnpayReturn`
verifies (over the `querystring.stringify` serialization), so that the
reconciliation branch is reached. -/
def wQokSigned : List (String × String) :=
  wQok ++ [("vnp_SecureHash", wHmac "secret" (qsStringify (sortObject wQok)))]

/-- Fixture: the payload of a failed callback (user cancelled, code 24). -/
def wQ24 : List (String × String) :=
  [("vnp_TxnRef", "20250101120000_abc"), ("vnp_ResponseCode", "24")]

/-- Fixture: the failed callback, signed so that verification passes. -/
def wQ24Signed : List (String × String) :=
  wQ24 ++ [("vnp_SecureHash", wHmac "secret" (qsStringify (sortObject wQ24)))]

/-- Fixture: the order whose redirect URL `createVnpayPaymentUrl` builds in
the C2 run. -/
def c2Order : POrder := ⟨"abc123", 7, .TO_PAY, .ONLINE_PAYMENT, 220, "ORD-000000010001", none⟩

/-- Fixture: the sorted outbound parameter set of the C2 run. -/
def c2Params : List (String × String) :=
  sortObject (vnpayParams wCfg c2Order "20250101120000")

end KiddieKingdom

namespace KiddieKingdom

set_option maxRecDepth 100000

/-! ### Helper lemmas -/

theorem applySaveHook_items (doc : OrderDoc) : (applySaveHook doc).items = doc.items := by
  unfold applySaveHook; split <;> rfl

theorem applySaveHook_discountAmount (doc : OrderDoc) :
    (applySaveHook doc).discountAmount = doc.discountAmount := by
  unfold applySaveHook; split <;> rfl

theorem applySaveHook_paymentStatus (doc : OrderDoc) :
    (applySaveHook doc).paymentStatus = doc.paymentStatus := by
  unfold applySaveHook; split <;> rfl

theorem applySaveHook_shippingStatus (doc : OrderDoc) :
    (applySaveHook doc).shippingStatus = doc.shippingStatus := by
  unfold applySaveHook; split <;> rfl

theorem applySaveHook_oid (doc : OrderDoc) : (applySaveHook doc).oid = doc.oid := by
  unfold applySaveHook; split <;> rfl

theorem applySaveHook_userId (doc : OrderDoc) : (applySaveHook doc).userId = doc.userId := by
  unfold applySaveHook; split <;> rfl

theorem applySaveHook_cancelledAt (doc : OrderDoc) :
    (applySaveHook doc).cancelledAt = doc.cancelledAt := by
  unfold applySaveHook; split <;> rfl

theorem applySaveHook_cancelledReason (doc : OrderDoc) :
    (applySaveHook doc).cancelledReason = doc.cancelledReason := by
  unfold applySaveHook; split <;> rfl

theorem applySaveHook_totalAmount (doc : OrderDoc) :
    ((applySaveHook doc).totalAmount : Int) =
      max 0 ((subtotalOf doc.items : Int) - (doc.discountAmount : Int)) := by
  by_cases h : doc.items.isEmpty
  · have hnil : doc.items = [] := by
      cases hd : doc.items with
      | nil => rfl
      | cons a l => rw [hd] at h; simp [List.isEmpty] at h
    simp [applySaveHook, h, hnil, subtotalOf]
  · simp only [applySaveHook, h, Bool.false_eq_true, if_false]
    omega

/-- Resolution failure surfaces unchanged and leaves the state untouched. -/
theorem createOrder_resolve_error (env : CreateEnv) (st : OrderState)
    (dto : CreateOrderDto) (userId : Nat) (e : String)
    (h : resolveOrderItems st.products dto.items = .error e) :
    createOrder env st dto userId = (st, .error e) := by
  unfold createOrder
  rw [h]

/-! ### C1 -/

/-- **C1.** For every checkout input accepted by `OrderService.create`, the
persisted order (the one appended to the order collection, which is also the
returned document) has `totalAmount = max(0, Σ unitPrice·qty − discountAmount)`
computed over the items resolved server-side at creation time.  The
`CreateOrderDto` has no total field, so no client-supplied total can enter the
computation. -/
theorem C1_totalAmount_recomputed (env : CreateEnv) (st st2 : OrderState)
    (dto : CreateOrderDto) (userId : Nat) (doc : OrderDoc)
    (h : createOrder env st dto userId = (st2, .ok doc)) :
    st2.orders = st.orders ++ [doc] ∧
    resolveOrderItems st.products dto.items = .ok doc.items ∧
    (doc.totalAmount : Int) =
      max 0 ((subtotalOf doc.items : Int) - (doc.discountAmount : Int)) := by
  unfold createOrder at h
  cases hres : resolveOrderItems st.products dto.items with
  | error e => rw [hres] at h; simp at h
  | ok orderItems =>
    rw [hres] at h
    unfold createOrderCore at h
    dsimp only at h
    cases hv : voucherStep st.vouchers dto.voucherId (subtotalOf orderItems) with
    | error e => rw [hv] at h; simp at h
    | ok pr =>
      obtain ⟨discount, vouchers2⟩ := pr
      rw [hv] at h
      dsimp only at h
      by_cases hs : env.saveFails
      · simp [hs] at h
      · simp only [hs, Bool.false_eq_true, if_false] at h
        rw [Prod.mk.injEq] at h
        obtain ⟨h1, h2⟩ := h
        rw [Except.ok.injEq] at h2
        subst h2
        subst h1
        refine ⟨by simp, ?_, ?_⟩
        · rw [applySaveHook_items]
        · rw [applySaveHook_items, applySaveHook_discountAmount]
          exact applySaveHook_totalAmount _

/-- Witness for C1: the spec §8 example checkout (subtotal 250, FIXED voucher
of 30, persisted total 220). -/
theorem C1_witness :
    wCreated.1.orders = wSt0.orders ++ [wDoc] ∧
    resolveOrderItems wSt0.products wDto.items = .ok wDoc.items ∧
    (wDoc.totalAmount : Int) =
      max 0 ((subtotalOf wDoc.items : Int) - (wDoc.discountAmount : Int)) :=
  C1_totalAmount_recomputed wEnv wSt0 wCreated.1 wDto 42 wDoc (by rfl)

/-! ### C10 -/

/-- Applying a voucher increments exactly the usage counter of the voucher
the lookup found. -/
theorem find?_applyVoucherById (vouchers : List Voucher) (vid : Nat) (voucher : Voucher)
    (h : vouchers.find? (fun v => v.vid == vid) = some voucher) :
    (applyVoucherById vouchers vid).find? (fun v => v.vid == vid) =
      some { voucher with usedCount := voucher.usedCount + 1 } := by
  induction vouchers with
  | nil => simp [List.find?] at h
  | cons a l ih =>
    unfold applyVoucherById at *
    by_cases ha : a.vid = vid
    · rw [List.find?_cons_of_pos _ (by simp [ha])] at h
      injection h with h
      subst h
      simp [List.map, List.find?_cons_of_pos, ha]
    · rw [List.find?_cons_of_neg _ (by simp [ha])] at h
      simp only [List.map]
      rw [List.find?_cons_of_neg _ (by simp [ha]), ih h]

/-- **C10.** In `OrderService.create` with a voucher, the voucher usage
counter is incremented (`applyVoucherById`) before `order.save()`; when the
save then fails, `create` raises an error, no order is persisted, and the
increment is not rolled back: voucher consumption and order persistence are
not atomic. -/
theorem C10_voucher_consumed_without_order (env : CreateEnv) (st : OrderState)
    (dto : CreateOrderDto) (userId vid : Nat) (voucher : Voucher) (items : List OrderItem)
    (hsave : env.saveFails = true)
    (hvid : dto.voucherId = some vid)
    (hres : resolveOrderItems st.products dto.items = .ok items)
    (hfind : st.vouchers.find? (fun v => v.vid == vid) = some voucher)
    (hvalid : (verifyVoucherByCode st.vouchers voucher.code (subtotalOf items)).valid = true) :
    createOrder env st dto userId =
      ({ st with vouchers := applyVoucherById st.vouchers vid },
        .error "Failed to create order: save failed") ∧
    ({ st with vouchers := applyVoucherById st.vouchers vid }).orders = st.orders ∧
    voucherUsedCount (applyVoucherById st.vouchers vid) vid =
      voucherUsedCount st.vouchers vid + 1 := by
  refine ⟨?_, rfl, ?_⟩
  · unfold createOrder createOrderCore voucherStep
    simp [hres, hvid, hfind, hvalid, hsave]
  · unfold voucherUsedCount
    rw [hfind, find?_applyVoucherById st.vouchers vid voucher hfind]
    rfl

/-- Witness for C10: the save of the §8 example checkout rejects; the FIXED
voucher's usage count still went from 0 to 1 while no order exists. -/
theorem C10_witness :
    createOrder wEnvSave wSt0 wDto 42 =
      ({ wSt0 with vouchers := applyVoucherById wSt0.vouchers 5 },
        .error "Failed to create order: save failed") ∧
    ({ wSt0 with vouchers := applyVoucherById wSt0.vouchers 5 }).orders = wSt0.orders ∧
    voucherUsedCount (applyVoucherById wSt0.vouchers 5) 5 =
      voucherUsedCount wSt0.vouchers 5 + 1 :=
  C10_voucher_consumed_without_order wEnvSave wSt0 wDto 42 5 wVoucher wDoc.items
    (by rfl) (by rfl) (by rfl) (by rfl) (by rfl)

/-! ### C4 -/

/-- When every line before `item` resolves and `item` itself fails, the
sequential resolution fails with `item`'s error. -/
theorem resolveOrderItems_prefix_error (products : List Product)
    (pre rest : List OrderItemDto) (item : OrderItemDto) (e : String)
    (hpre : ∀ it ∈ pre, ∃ r, resolveOrderItem products it = .ok r)
    (hitem : resolveOrderItem products item = .error e) :
    resolveOrderItems products (pre ++ item :: rest) = .error e := by
  induction pre with
  | nil => simp [resolveOrderItems, hitem]
  | cons a l ih =>
    obtain ⟨r, hr⟩ := hpre a (by simp)
    have hl := ih (fun it hit => hpre it (by simp [hit]))
    simp [resolveOrderItems, hr, hl]

/-- A line naming an understocked variant resolves to the out-of-stock
error. -/
theorem resolveOrderItem_variant_out_of_stock (products : List Product)
    (item : OrderItemDto) (product : Product) (variant : Variant) (vid : Nat)
    (hvid : item.variantId = some vid)
    (hp : products.find? (fun p => p.pid == item.productId) = some product)
    (hv : product.variants.find? (fun v => v.vid == vid) = some variant)
    (hq : variant.quantity < item.quantity) :
    resolveOrderItem products item =
      .error ("Product " ++ product.name ++ " (variant " ++
        variant.sku.getD "unknown" ++ ") is out of stock") := by
  unfold resolveOrderItem
  rw [hp]
  have hne : product.variants.isEmpty = false := by
    cases hvl : product.variants with
    | nil => rw [hvl] at hv; simp [List.find?] at hv
    | cons a l => rfl
  simp [hne, hvid, hv, hq]

/-- **C4.** If a requested order line names a specific variant whose available
quantity is strictly below the requested quantity (and the lines before it
resolve), `OrderService.create` fails with the insufficient-stock error for
that product/variant and returns with the state untouched: no order is
persisted and no stock is debited. -/
theorem C4_insufficient_stock_aborts (env : CreateEnv) (st : OrderState)
    (dto : CreateOrderDto) (userId : Nat) (pre rest : List OrderItemDto)
    (item : OrderItemDto) (product : Product) (variant : Variant) (vid : Nat)
    (hitems : dto.items = pre ++ item :: rest)
    (hpre : ∀ it ∈ pre, ∃ r, resolveOrderItem st.products it = .ok r)
    (hvid : item.variantId = some vid)
    (hp : st.products.find? (fun p => p.pid == item.productId) = some product)
    (hv : product.variants.find? (fun v => v.vid == vid) = some variant)
    (hq : variant.quantity < item.quantity) :
    createOrder env st dto userId =
      (st, .error ("Product " ++ product.name ++ " (variant " ++
        variant.sku.getD "unknown" ++ ") is out of stock")) := by
  apply createOrder_resolve_error
  rw [hitems]
  exact resolveOrderItems_prefix_error st.products pre rest item _ hpre
    (resolveOrderItem_variant_out_of_stock st.products item product variant vid
      hvid hp hv hq)

/-- Witness for C4: requesting 9 units of variant A (stock 5) fails and the
state is exactly the initial one. -/
theorem C4_witness :
    createOrder wEnv wSt0 wDtoBad 42 =
      (wSt0, .error "Product Teddy (variant A) is out of stock") :=
  C4_insufficient_stock_aborts wEnv wSt0 wDtoBad 42 [] [] ⟨10, some 1, 9⟩ wProdA wVarA 1
    (by rfl) (by intro it hit; simp at hit) (by rfl) (by rfl) (by rfl) (by decide)

/-! ### C7 -/

/-- `Math.min(...prices)` (a fold of `min`) yields an element of the list. -/
theorem foldl_min_mem (l : List Nat) : ∀ a : Nat, l.foldl min a ∈ a :: l := by
  induction l with
  | nil => intro a; simp [List.foldl]
  | cons b t ih =>
    intro a
    simp only [List.foldl]
    rcases List.mem_cons.mp (ih (min a b)) with h | h
    · rw [h]
      rcases Nat.le_total a b with hab | hab
      · rw [min_eq_left hab]
        exact List.mem_cons_self a (b :: t)
      · rw [min_eq_right hab]
        exact List.mem_cons.mpr (Or.inr (List.mem_cons_self b t))
    · exact List.mem_cons.mpr (Or.inr (List.mem_cons.mpr (Or.inr h)))

/-- The fold of `min` is bounded by its initial value. -/
theorem foldl_min_le_init (l : List Nat) : ∀ a : Nat, l.foldl min a ≤ a := by
  induction l with
  | nil => intro a; exact Nat.le_refl a
  | cons b t ih =>
    intro a
    simp only [List.foldl]
    exact Nat.le_trans (ih (min a b)) (Nat.min_le_left a b)

/-- The fold of `min` is a lower bound of initial value and list. -/
theorem foldl_min_le (l : List Nat) : ∀ a x : Nat, x ∈ a :: l → l.foldl min a ≤ x := by
  induction l with
  | nil =>
    intro a x hx
    rcases List.mem_cons.mp hx with h | h
    · rw [h]
      exact Nat.le_refl a
    · simp at h
  | cons b t ih =>
    intro a x hx
    simp only [List.foldl]
    rcases List.mem_cons.mp hx with h | h
    · rw [h]
      exact Nat.le_trans (foldl_min_le_init t (min a b)) (Nat.min_le_left a b)
    · rcases List.mem_cons.mp h with h2 | h2
      · rw [h2]
        exact Nat.le_trans (foldl_min_le_init t (min a b)) (Nat.min_le_right a b)
      · exact ih (min a b) x (List.mem_cons.mpr (Or.inr h2))

/-- **C7.** An order line with no `variantId` is validated against the summed
quantity of all the product's variants and priced at the minimum variant
price; a product with no variants at all fails the resolution and thus the
whole creation. -/
theorem C7_no_variant_line (products : List Product) (item : OrderItemDto)
    (product : Product)
    (hvid : item.variantId = none)
    (hp : products.find? (fun p => p.pid == item.productId) = some product) :
    (product.variants = [] →
      resolveOrderItem products item =
        .error ("Product " ++ product.name ++ " has no variants")) ∧
    (product.variants ≠ [] →
      product.variants.foldl (fun total v => total + v.quantity) 0 < item.quantity →
      resolveOrderItem products item =
        .error ("Product " ++ product.name ++ " is out of stock")) ∧
    (product.variants ≠ [] →
      item.quantity ≤ product.variants.foldl (fun total v => total + v.quantity) 0 →
      (∀ v ∈ product.variants, v.price.isSome) →
      ∃ r, resolveOrderItem products item = .ok r ∧ r.quantity = item.quantity ∧
        some r.price ∈ product.variants.map Variant.price ∧
        (∀ v ∈ product.variants, ∀ pr, v.price = some pr → r.price ≤ pr)) ∧
    (∀ (env : CreateEnv) (st : OrderState) (dto : CreateOrderDto) (userId : Nat)
        (rest : List OrderItemDto),
      st.products = products → dto.items = item :: rest → product.variants = [] →
      createOrder env st dto userId =
        (st, .error ("Product " ++ product.name ++ " has no variants"))) := by
  have hempty : product.variants = [] →
      resolveOrderItem products item =
        .error ("Product " ++ product.name ++ " has no variants") := by
    intro hnil
    unfold resolveOrderItem
    rw [hp]
    simp [hnil]
  refine ⟨hempty, ?_, ?_, ?_⟩
  · intro hnz hlt
    have hne : product.variants.isEmpty = false := by
      cases hvl : product.variants with
      | nil => exact absurd hvl hnz
      | cons a l => rfl
    unfold resolveOrderItem
    rw [hp]
    simp [hne, hvid, hlt]
  · intro hnz hge hall
    have hne : product.variants.isEmpty = false := by
      cases hvl : product.variants with
      | nil => exact absurd hvl hnz
      | cons a l => rfl
    have hnlt : ¬ product.variants.foldl (fun total v => total + v.quantity) 0
        < item.quantity := Nat.not_lt.mpr hge
    unfold resolveOrderItem
    rw [hp]
    cases hpr : product.variants.filterMap (fun v => v.price) with
    | nil =>
      exfalso
      cases hvl : product.variants with
      | nil => exact hnz hvl
      | cons a l =>
        have ha : a.price.isSome := hall a (by rw [hvl]; simp)
        obtain ⟨pa, hpa⟩ := Option.isSome_iff_exists.mp ha
        have : pa ∈ product.variants.filterMap (fun v => v.price) :=
          List.mem_filterMap.mpr ⟨a, by rw [hvl]; simp, hpa⟩
        rw [hpr] at this
        simp at this
    | cons p ps =>
      refine ⟨{ productId := item.productId, variantId := none,
                quantity := item.quantity, price := ps.foldl min p,
                productName := product.name }, ?_, rfl, ?_, ?_⟩
      · simp [hne, hvid, hnlt, hpr]
      · have hmem : ps.foldl min p ∈ p :: ps := foldl_min_mem ps p
        rw [← hpr] at hmem
        obtain ⟨v, hvmem, hvp⟩ := List.mem_filterMap.mp hmem
        exact List.mem_map.mpr ⟨v, hvmem, hvp⟩
      · intro v hvmem pr hpv
        have : pr ∈ p :: ps := by
          rw [← hpr]
          exact List.mem_filterMap.mpr ⟨v, hvmem, hpv⟩
        exact foldl_min_le ps p pr this
  · intro env st dto userId rest hst hitems hnil
    apply createOrder_resolve_error
    rw [hitems, hst]
    simp [resolveOrderItems, hempty hnil]

/-- Witness for C7: a 3-unit line on a two-variant product (stocks 5+1,
prices 100 and 50) resolves at price 50; a variant-less product fails. -/
theorem C7_witness :
    (∃ r, resolveOrderItem [wProdC, wProdEmpty] ⟨12, none, 3⟩ = .ok r ∧ r.quantity = 3 ∧
      some r.price ∈ wProdC.variants.map Variant.price ∧
      (∀ v ∈ wProdC.variants, ∀ pr, v.price = some pr → r.price ≤ pr)) ∧
    resolveOrderItem [wProdC, wProdEmpty] ⟨13, none, 1⟩ =
      .error "Product Empty has no variants" := by
  constructor
  · exact (C7_no_variant_line [wProdC, wProdEmpty] ⟨12, none, 3⟩ wProdC rfl rfl).2.2.1
      (by decide) (by decide) (by decide)
  · exact (C7_no_variant_line [wProdC, wProdEmpty] ⟨13, none, 1⟩ wProdEmpty rfl rfl).1 rfl

/-! ### Stock-adjustment lemmas (shared by the order-mutation claims) -/

theorem find?_adjust_variants_same (variants : List Variant) (vid qty : Nat) (d : Bool) :
    (variants.map (fun v => if v.vid == vid then adjVariant qty d v else v)).find?
        (fun v => v.vid == vid) =
      (variants.find? (fun v => v.vid == vid)).map (adjVariant qty d) := by
  induction variants with
  | nil => rfl
  | cons a l ih =>
    simp only [List.map]
    by_cases ha : (a.vid == vid) = true
    · have hb : ((adjVariant qty d a).vid == vid) = true := by simpa [adjVariant] using ha
      rw [if_pos ha, List.find?_cons, List.find?_cons, hb, ha]
      rfl
    · have hb : (a.vid == vid) = false := by simpa using ha
      rw [if_neg ha, List.find?_cons, List.find?_cons, hb]
      exact ih

theorem find?_adjust_variants_diff (variants : List Variant) (vid vid' qty : Nat) (d : Bool)
    (h : vid' ≠ vid) :
    (variants.map (fun v => if v.vid == vid then adjVariant qty d v else v)).find?
        (fun v => v.vid == vid') = variants.find? (fun v => v.vid == vid') := by
  induction variants with
  | nil => rfl
  | cons a l ih =>
    simp only [List.map]
    by_cases ha : (a.vid == vid) = true
    · have hvv : a.vid = vid := by simpa using ha
      have hno : ((adjVariant qty d a).vid == vid') = false := by
        simp [adjVariant, hvv]
        exact fun hh => h hh.symm
      have hno2 : (a.vid == vid') = false := by
        simp [hvv]
        exact fun hh => h hh.symm
      rw [if_pos ha, List.find?_cons, List.find?_cons, hno, hno2]
      exact ih
    · rw [if_neg ha, List.find?_cons, List.find?_cons]
      by_cases ha' : (a.vid == vid') = true
      · rw [ha']
      · have hb : (a.vid == vid') = false := by simpa using ha'
        rw [hb]
        exact ih

theorem find?_adjustProducts (products : List Product) (pid pid' vid qty : Nat) (d : Bool) :
    (adjustProducts products pid vid qty d).find? (fun p => p.pid == pid') =
      (products.find? (fun p => p.pid == pid')).map (adjustOneProduct pid vid qty d) := by
  unfold adjustProducts
  have hcomp : ((fun p => p.pid == pid') ∘ adjustOneProduct pid vid qty d) =
      (fun p : Product => p.pid == pid') := by
    funext q
    by_cases hq : (q.pid == pid) = true
    · simp [Function.comp, adjustOneProduct, hq]
    · simp [Function.comp, adjustOneProduct, hq]
  rw [List.find?_map, hcomp]

theorem findVariant_adjustProducts_same (products : List Product) (pid vid qty : Nat)
    (d : Bool) :
    findVariant (adjustProducts products pid vid qty d) pid vid =
      (findVariant products pid vid).map (adjVariant qty d) := by
  unfold findVariant
  rw [find?_adjustProducts]
  cases hf : products.find? (fun p => p.pid == pid) with
  | none => rfl
  | some p =>
    have hp : (p.pid == pid) = true := by simpa using List.find?_some hf
    simp only [Option.map, adjustOneProduct, if_pos hp]
    exact find?_adjust_variants_same p.variants vid qty d

theorem findVariant_adjustProducts_diff (products : List Product)
    (pid vid pid' vid' qty : Nat) (d : Bool) (h : pid' ≠ pid ∨ vid' ≠ vid) :
    findVariant (adjustProducts products pid vid qty d) pid' vid' =
      findVariant products pid' vid' := by
  unfold findVariant
  rw [find?_adjustProducts]
  cases hf : products.find? (fun p => p.pid == pid') with
  | none => rfl
  | some p =>
    by_cases hp : (p.pid == pid) = true
    · have hp' : (p.pid == pid') = true := by simpa using List.find?_some hf
      have hpid : p.pid = pid := by simpa using hp
      have hpid' : p.pid = pid' := by simpa using hp'
      have hv : vid' ≠ vid := by
        rcases h with h1 | h1
        · exact absurd (hpid'.symm.trans hpid) h1
        · exact h1
      simp only [Option.map, adjustOneProduct, if_pos hp]
      exact find?_adjust_variants_diff p.variants vid vid' qty d hv
    · simp only [Option.map, adjustOneProduct, if_neg hp]

/-- With no failing pair injected, the adjustment loop never raises. -/
theorem adjustOrderItems_nofail (items : List OrderItem) :
    ∀ (products : List Product) (d : Bool),
      ∃ ps, adjustOrderItems [] products items d = .ok ps := by
  induction items with
  | nil => intro products d; exact ⟨products, rfl⟩
  | cons item rest ih =>
    intro products d
    cases hv : item.variantId with
    | none =>
      simpa [adjustOrderItems, hv] using ih products d
    | some vid =>
      simp only [adjustOrderItems, hv, updateVariantStockOnOrder, List.not_mem_nil,
        if_false, reduceCtorEq]
      exact ih _ d

/-- A variant addressed by no item of the loop keeps its record unchanged. -/
theorem adjustOrderItems_frame (items : List OrderItem) :
    ∀ (products ps : List Product) (d : Bool) (pid' vid' : Nat),
      adjustOrderItems [] products items d = .ok ps →
      (∀ item ∈ items, itemKey item ≠ some (pid', vid')) →
      findVariant ps pid' vid' = findVariant products pid' vid' := by
  induction items with
  | nil =>
    intro products ps d pid' vid' h _
    simp only [adjustOrderItems] at h
    injection h with h
    rw [h]
  | cons item rest ih =>
    intro products ps d pid' vid' h hkeys
    cases hv : item.variantId with
    | none =>
      simp only [adjustOrderItems, hv] at h
      exact ih products ps d pid' vid' h
        (fun it hit => hkeys it (List.mem_cons.mpr (Or.inr hit)))
    | some vid =>
      simp only [adjustOrderItems, hv, updateVariantStockOnOrder, List.not_mem_nil,
        if_false, reduceCtorEq] at h
      have hkey := hkeys item (List.mem_cons_self item rest)
      have hne : pid' ≠ item.productId ∨ vid' ≠ vid := by
        by_contra hc
        push_neg at hc
        obtain ⟨h1, h2⟩ := hc
        apply hkey
        rw [itemKey, hv]
        simp [h1, h2]
      rw [ih _ ps d pid' vid' h (fun it hit => hkeys it (List.mem_cons.mpr (Or.inr hit)))]
      exact findVariant_adjustProducts_diff products item.productId vid pid' vid'
        item.quantity d hne

/-- With pairwise-distinct `(productId, variantId)` keys and no injected
failure, the loop adjusts each addressed variant by exactly its item's
quantity. -/
theorem adjustOrderItems_qty (items : List OrderItem) :
    ∀ (products ps : List Product) (d : Bool),
      (items.filterMap itemKey).Nodup →
      adjustOrderItems [] products items d = .ok ps →
      ∀ item ∈ items, ∀ vid, item.variantId = some vid →
        findVariant ps item.productId vid =
          (findVariant products item.productId vid).map (adjVariant item.quantity d) := by
  induction items with
  | nil => intro products ps d _ _ item hmem; simp at hmem
  | cons it rest ih =>
    intro products ps d hnd h item hmem vid hvid
    cases hv : it.variantId with
    | none =>
      simp only [adjustOrderItems, hv] at h
      have hnd' : (rest.filterMap itemKey).Nodup := by
        have : (it :: rest).filterMap itemKey = rest.filterMap itemKey := by
          simp [List.filterMap_cons, itemKey, hv]
        rw [this] at hnd
        exact hnd
      rcases List.mem_cons.mp hmem with he | he
      · subst he
        rw [hv] at hvid
        cases hvid
      · exact ih products ps d hnd' h item he vid hvid
    | some vid0 =>
      simp only [adjustOrderItems, hv, updateVariantStockOnOrder, List.not_mem_nil,
        if_false, reduceCtorEq] at h
      have hfmk : (it :: rest).filterMap itemKey =
          (it.productId, vid0) :: rest.filterMap itemKey := by
        simp [List.filterMap_cons, itemKey, hv]
      rw [hfmk] at hnd
      have hnotin := (List.nodup_cons.mp hnd).1
      have hnd' := (List.nodup_cons.mp hnd).2
      rcases List.mem_cons.mp hmem with he | he
      · have hvv : vid = vid0 := by
          rw [he, hv] at hvid
          injection hvid with h2
          exact h2.symm
        rw [he, hvv]
        rw [adjustOrderItems_frame rest _ ps d it.productId vid0 h
          (fun it2 hit2 hkey2 => hnotin (List.mem_filterMap.mpr ⟨it2, hit2, hkey2⟩))]
        exact findVariant_adjustProducts_same products it.productId vid0 it.quantity d
      · have hpair : (item.productId, vid) ∈ rest.filterMap itemKey :=
          List.mem_filterMap.mpr ⟨item, he, by simp [itemKey, hvid]⟩
        have hne : item.productId ≠ it.productId ∨ vid ≠ vid0 := by
          by_contra hc
          push_neg at hc
          obtain ⟨h1, h2⟩ := hc
          rw [h1, h2] at hpair
          exact hnotin hpair
        rw [ih _ ps d hnd' h item he vid hvid,
          findVariant_adjustProducts_diff products it.productId vid0 item.productId vid
            it.quantity d hne]

/-! ### C9 -/

/-- **C9.** The shared stock-adjustment loop of `create`, `cancelOrder` and
`cancelCashOnDeliveryOrder` skips every item that carries no `variantId`:
such an item contributes nothing, and a list of only such items leaves the
product collection exactly unchanged, at creation (debit) and on cancellation
(credit) alike. -/
theorem C9_items_without_variant_skipped (f : List (Nat × Nat)) (products : List Product)
    (item : OrderItem) (rest : List OrderItem) (d : Bool)
    (h : item.variantId = none) :
    adjustOrderItems f products (item :: rest) d = adjustOrderItems f products rest d ∧
    (∀ items : List OrderItem, (∀ it ∈ items, it.variantId = none) →
      adjustOrderItems f products items d = .ok products) := by
  constructor
  · simp [adjustOrderItems, h]
  · intro items
    induction items with
    | nil => intro _; rfl
    | cons a l ih =>
      intro hall
      simp only [adjustOrderItems, hall a (List.mem_cons_self a l)]
      exact ih (fun it hit => hall it (List.mem_cons.mpr (Or.inr hit)))

/-- Witness for C9: a no-variant item (alone and in front of another list)
leaves the fixture product collection untouched. -/
theorem C9_witness :
    adjustOrderItems [] wSt0.products [⟨10, none, 3, 100, "Teddy"⟩] true =
      .ok wSt0.products := by
  apply (C9_items_without_variant_skipped [] wSt0.products ⟨10, none, 3, 100, "Teddy"⟩
    [] true rfl).2
  intro it hit
  rcases List.mem_cons.mp hit with he | he
  · rw [he]
  · simp at he

/-! ### C6 -/

/-- Saving a cancelled order replaces the matched document in the collection;
the lookup by `(oid, userId)` then returns the saved document. -/
theorem findUserOrder_saveOrder (orders : List OrderDoc) (doc : OrderDoc) (oid userId : Nat)
    (hoid : doc.oid = oid) (huid : doc.userId = userId)
    (h : (findUserOrder orders oid userId).isSome = true) :
    findUserOrder (saveOrder orders doc) oid userId = some (applySaveHook doc) := by
  unfold findUserOrder saveOrder at *
  induction orders with
  | nil => simp [List.find?] at h
  | cons a l ih =>
    simp only [List.map]
    by_cases ha : (a.oid == doc.oid) = true
    · rw [if_pos ha, List.find?_cons]
      have hb : ((applySaveHook doc).oid == oid && (applySaveHook doc).userId == userId)
          = true := by
        simp [applySaveHook_oid, applySaveHook_userId, hoid, huid]
      rw [hb]
    · rw [if_neg ha, List.find?_cons]
      have hao : a.oid ≠ oid := by
        intro he
        apply ha
        rw [he, hoid]
        simp
      have hb : (a.oid == oid && a.userId == userId) = false := by
        simp [hao]
      rw [hb]
      apply ih
      rw [List.find?_cons, hb] at h
      exact h

/-- The successful path of `cancelOrder`: an owned PENDING order is marked
FAILED/CANCELED, stock restoration is attempted best-effort, and the order is
saved. -/
theorem cancelOrder_pending (f : List (Nat × Nat)) (st : OrderState) (oid userId : Nat)
    (o : OrderDoc)
    (ho : findUserOrder st.orders oid userId = some o)
    (hp : o.paymentStatus = PaymentStatus.PENDING) :
    cancelOrder f st oid userId =
      ({ st with
          products := (match adjustOrderItems f st.products o.items false with
            | .ok ps => ps
            | .error (ps, _) => ps)
          orders := saveOrder st.orders { o with
            paymentStatus := PaymentStatus.FAILED
            shippingStatus := ShippingStatus.CANCELED } },
        .ok (applySaveHook { o with
          paymentStatus := PaymentStatus.FAILED
          shippingStatus := ShippingStatus.CANCELED })) := by
  unfold cancelOrder
  rw [ho]
  dsimp only
  rw [if_neg (show ¬(o.paymentStatus ≠ PaymentStatus.PENDING) from fun hne => hne hp)]

/-- **C6.** `cancelOrder` succeeds exactly when the order exists for the
calling user with `paymentStatus = PENDING`; on success the saved order has
`paymentStatus = FAILED` and `shippingStatus = CANCELED` and each
variant-carrying item's stock is credited back by its quantity; calling
`cancelOrder` again on the result fails with the business-rule error and
changes nothing. -/
theorem C6_cancel_only_pending (f : List (Nat × Nat)) (st : OrderState) (oid userId : Nat) :
    ((∃ doc, (cancelOrder f st oid userId).2 = .ok doc) ↔
      (∃ o, findUserOrder st.orders oid userId = some o ∧
        o.paymentStatus = PaymentStatus.PENDING)) ∧
    (∀ o, findUserOrder st.orders oid userId = some o →
      o.paymentStatus = PaymentStatus.PENDING →
      (∃ doc, (cancelOrder f st oid userId).2 = .ok doc ∧
        doc.paymentStatus = PaymentStatus.FAILED ∧
        doc.shippingStatus = ShippingStatus.CANCELED ∧
        findUserOrder (cancelOrder f st oid userId).1.orders oid userId = some doc) ∧
      (f = [] → (o.items.filterMap itemKey).Nodup →
        ∀ item ∈ o.items, ∀ vid, item.variantId = some vid →
          findVariant (cancelOrder f st oid userId).1.products item.productId vid =
            (findVariant st.products item.productId vid).map
              (adjVariant item.quantity false)) ∧
      cancelOrder f (cancelOrder f st oid userId).1 oid userId =
        ((cancelOrder f st oid userId).1,
          .error "Cannot cancel order in current payment status")) := by
  constructor
  · constructor
    · rintro ⟨doc, hdoc⟩
      cases ho : findUserOrder st.orders oid userId with
      | none =>
        unfold cancelOrder at hdoc
        rw [ho] at hdoc
        simp at hdoc
      | some o =>
        by_cases hp : o.paymentStatus = PaymentStatus.PENDING
        · exact ⟨o, rfl, hp⟩
        · unfold cancelOrder at hdoc
          rw [ho] at hdoc
          dsimp only at hdoc
          rw [if_pos hp] at hdoc
          simp at hdoc
    · rintro ⟨o, ho, hp⟩
      rw [cancelOrder_pending f st oid userId o ho hp]
      exact ⟨_, rfl⟩
  · intro o ho hp
    have hc := cancelOrder_pending f st oid userId o ho hp
    have ho2 : st.orders.find? (fun x => x.oid == oid && x.userId == userId) = some o := ho
    have hown := List.find?_some ho2
    have hoid : o.oid = oid := by
      have := (Bool.and_eq_true _ _).mp hown
      simpa using this.1
    have huid : o.userId = userId := by
      have := (Bool.and_eq_true _ _).mp hown
      simpa using this.2
    have hfind2 : findUserOrder (cancelOrder f st oid userId).1.orders oid userId =
        some (applySaveHook { o with
          paymentStatus := PaymentStatus.FAILED
          shippingStatus := ShippingStatus.CANCELED }) := by
      rw [hc]
      exact findUserOrder_saveOrder st.orders _ oid userId hoid huid
        (by rw [ho]; rfl)
    refine ⟨⟨_, by rw [hc], ?_, ?_, hfind2⟩, ?_, ?_⟩
    · rw [applySaveHook_paymentStatus]
    · rw [applySaveHook_shippingStatus]
    · intro hf hnd item hmem vid hvid
      subst hf
      rw [hc]
      obtain ⟨ps, hps⟩ := adjustOrderItems_nofail o.items st.products false
      dsimp only
      rw [hps]
      exact adjustOrderItems_qty o.items st.products ps false hnd hps item hmem vid hvid
    · conv =>
        lhs
        rw [cancelOrder]
      rw [hfind2]
      dsimp only
      rw [if_pos (by rw [applySaveHook_paymentStatus]; exact fun hx => by cases hx)]

/-- Witness for C6: cancelling the freshly created §8 example order succeeds
and flips the statuses; cancelling again fails with the business-rule error
and leaves the state as it was. -/
theorem C6_witness :
    cancelOrder [] (cancelOrder [] wCreated.1 0 42).1 0 42 =
      ((cancelOrder [] wCreated.1 0 42).1,
        .error "Cannot cancel order in current payment status") ∧
    (∃ doc, (cancelOrder [] wCreated.1 0 42).2 = .ok doc ∧
      doc.paymentStatus = PaymentStatus.FAILED ∧
      doc.shippingStatus = ShippingStatus.CANCELED ∧
      findUserOrder (cancelOrder [] wCreated.1 0 42).1.orders 0 42 = some doc) := by
  have h := (C6_cancel_only_pending [] wCreated.1 0 42).2 wDoc (by rfl) (by rfl)
  exact ⟨h.2.2, h.1⟩

/-! ### C8 -/

/-- **C8.** `cancelCashOnDeliveryOrder` requires `paymentMethod =
CASH_ON_DELIVERY`, `paymentStatus = PENDING` and `shippingStatus = PENDING`,
rejecting each violation with its own error and leaving the state untouched.
On success it sets `shippingStatus = CANCELED`, records
`cancelledAt`/`cancelledReason`, and credits stock back per variant-carrying
item.  A stock-restoration failure is fatal: it surfaces as the internal
error and aborts the order save (the order collection stays unchanged, only
the restorations already performed persist) — whereas `cancelOrder` on the
same state with the same failing restoration still succeeds and saves the
cancelled order. -/
theorem C8_cancel_cod_strict (f : List (Nat × Nat)) (now : Nat) (st : OrderState)
    (oid userId : Nat) (reason : Option String) (o : OrderDoc)
    (ho : findUserOrder st.orders oid userId = some o) :
    (o.paymentMethod ≠ PaymentMethod.CASH_ON_DELIVERY →
      cancelCashOnDeliveryOrder f now st oid userId reason =
        (st, .error "Only Cash on Delivery orders can be canceled")) ∧
    (o.paymentMethod = PaymentMethod.CASH_ON_DELIVERY →
      o.paymentStatus ≠ PaymentStatus.PENDING →
      cancelCashOnDeliveryOrder f now st oid userId reason =
        (st, .error "Cannot cancel order in current payment status")) ∧
    (o.paymentMethod = PaymentMethod.CASH_ON_DELIVERY →
      o.paymentStatus = PaymentStatus.PENDING →
      o.shippingStatus ≠ ShippingStatus.PENDING →
      cancelCashOnDeliveryOrder f now st oid userId reason =
        (st, .error "Only orders with PENDING shipping status can be canceled")) ∧
    (o.paymentMethod = PaymentMethod.CASH_ON_DELIVERY →
      o.paymentStatus = PaymentStatus.PENDING →
      o.shippingStatus = ShippingStatus.PENDING →
      (f = [] →
        ∃ doc, (cancelCashOnDeliveryOrder f now st oid userId reason).2 = .ok doc ∧
          doc.shippingStatus = ShippingStatus.CANCELED ∧
          doc.cancelledAt = some now ∧
          doc.cancelledReason = reason ∧
          findUserOrder (cancelCashOnDeliveryOrder f now st oid userId reason).1.orders
              oid userId = some doc ∧
          ((o.items.filterMap itemKey).Nodup →
            ∀ item ∈ o.items, ∀ vid, item.variantId = some vid →
              findVariant (cancelCashOnDeliveryOrder f now st oid userId reason).1.products
                  item.productId vid =
                (findVariant st.products item.productId vid).map
                  (adjVariant item.quantity false))) ∧
      (∀ ps e, adjustOrderItems f st.products o.items false = .error (ps, e) →
        cancelCashOnDeliveryOrder f now st oid userId reason =
          ({ st with products := ps },
            .error ("Failed to restore product quantities: " ++ e)) ∧
        ({ st with products := ps }).orders = st.orders ∧
        (∃ doc2, (cancelOrder f st oid userId).2 = .ok doc2))) := by
  have ho2 : st.orders.find? (fun x => x.oid == oid && x.userId == userId) = some o := ho
  have hown := List.find?_some ho2
  have hoid : o.oid = oid := by
    have h2 := (Bool.and_eq_true _ _).mp hown
    simpa using h2.1
  have huid : o.userId = userId := by
    have h2 := (Bool.and_eq_true _ _).mp hown
    simpa using h2.2
  refine ⟨?_, ?_, ?_, ?_⟩
  · intro hm
    unfold cancelCashOnDeliveryOrder
    rw [ho]
    dsimp only
    rw [if_pos hm]
  · intro hm hp
    unfold cancelCashOnDeliveryOrder
    rw [ho]
    dsimp only
    rw [if_neg (fun hx => hx hm), if_pos hp]
  · intro hm hp hs
    unfold cancelCashOnDeliveryOrder
    rw [ho]
    dsimp only
    rw [if_neg (fun hx => hx hm), if_neg (fun hx => hx hp), if_pos hs]
  · intro hm hp hs
    have hmain : cancelCashOnDeliveryOrder f now st oid userId reason =
        (match adjustOrderItems f st.products o.items false with
          | .error (ps, e) =>
            ({ st with products := ps },
              .error ("Failed to restore product quantities: " ++ e))
          | .ok ps =>
            ({ st with
                products := ps
                orders := saveOrder st.orders { o with
                  shippingStatus := ShippingStatus.CANCELED
                  cancelledAt := some now
                  cancelledReason := reason } },
              .ok (applySaveHook { o with
                shippingStatus := ShippingStatus.CANCELED
                cancelledAt := some now
                cancelledReason := reason }))) := by
      unfold cancelCashOnDeliveryOrder
      rw [ho]
      dsimp only
      rw [if_neg (fun hx => hx hm), if_neg (fun hx => hx hp), if_neg (fun hx => hx hs)]
    constructor
    · intro hf
      subst hf
      obtain ⟨ps, hps⟩ := adjustOrderItems_nofail o.items st.products false
      rw [hmain, hps]
      refine ⟨_, rfl, ?_, ?_, ?_, ?_, ?_⟩
      · rw [applySaveHook_shippingStatus]
      · rw [applySaveHook_cancelledAt]
      · rw [applySaveHook_cancelledReason]
      · exact findUserOrder_saveOrder st.orders _ oid userId hoid huid (by rw [ho]; rfl)
      · intro hnd item hmem vid hvid
        exact adjustOrderItems_qty o.items st.products ps false hnd hps item hmem vid hvid
    · intro ps e herr
      rw [hmain, herr]
      exact ⟨rfl, rfl, ⟨_, by rw [cancelOrder_pending f st oid userId o ho hp]⟩⟩

/-- Witness for C8: cancelling the created COD order succeeds with
`cancelledAt`/`cancelledReason` recorded; with a failing restoration for
variant (10, 1) it aborts with the internal error and no order save, while
`cancelOrder` under the same failure still succeeds. -/
theorem C8_witness :
    (∃ doc, (cancelCashOnDeliveryOrder [] 9 wCreated.1 0 42 (some "late")).2 = .ok doc ∧
      doc.shippingStatus = ShippingStatus.CANCELED ∧
      doc.cancelledAt = some 9 ∧
      doc.cancelledReason = some "late" ∧
      findUserOrder (cancelCashOnDeliveryOrder [] 9 wCreated.1 0 42 (some "late")).1.orders
          0 42 = some doc ∧
      ((wDoc.items.filterMap itemKey).Nodup →
        ∀ item ∈ wDoc.items, ∀ vid, item.variantId = some vid →
          findVariant (cancelCashOnDeliveryOrder [] 9 wCreated.1 0 42
              (some "late")).1.products item.productId vid =
            (findVariant wCreated.1.products item.productId vid).map
              (adjVariant item.quantity false))) ∧
    (cancelCashOnDeliveryOrder [(10, 1)] 9 wCreated.1 0 42 (some "late") =
        ({ wCreated.1 with products := wCreated.1.products },
          .error "Failed to restore product quantities: stock adjustment failed") ∧
      ({ wCreated.1 with products := wCreated.1.products }).orders = wCreated.1.orders ∧
      (∃ doc2, (cancelOrder [(10, 1)] wCreated.1 0 42).2 = .ok doc2)) := by
  constructor
  · exact ((C8_cancel_cod_strict [] 9 wCreated.1 0 42 (some "late") wDoc (by rfl)).2.2.2
      (by rfl) (by rfl) (by rfl)).1 rfl
  · exact ((C8_cancel_cod_strict [(10, 1)] 9 wCreated.1 0 42 (some "late") wDoc
      (by rfl)).2.2.2 (by rfl) (by rfl) (by rfl)).2 wCreated.1.products
      "stock adjustment failed" (by rfl)

/-! ### C5 -/

/-- **C5.** For a verified callback whose response code is any exact string
other than `"00"`, `handleVnpayReturn` marks the matched payment-history
record FAILED with a reason naming that code, and leaves the order collection
and the email counter untouched — the order is exactly as payable as before,
so `processPayment` can be called again. -/
theorem C5_failure_code_preserves_order (hmac : String → String → String)
    (cfg : VnpayConfig) (fe : String) (now : Nat) (st : ReconState)
    (query : List (String × String)) (txnRef oid rc : String) (ph : PaymentHistoryDoc)
    (hhash : lookupParam query "vnp_SecureHash" =
      some (hmac cfg.hashSecret (qsStringify (sortObject (strippedParams query)))))
    (htxn : lookupParam (strippedParams query) "vnp_TxnRef" = some txnRef)
    (hoid : (jsSplit txnRef '_').get? 1 = some oid)
    (hrc : lookupParam (strippedParams query) "vnp_ResponseCode" = some rc)
    (hne : rc ≠ "00")
    (hph : st.histories.find? (fun h => h.orderId == oid) = some ph) :
    handleVnpayReturn hmac cfg fe now st query =
      ({ st with histories := replaceFirstHistory st.histories oid (failedHistory ph rc) },
        .ok { success := false, redirectUrl := fe ++ "/payment/cancel?orderId=" ++ oid, message := "Payment failed" }) ∧
    (handleVnpayReturn hmac cfg fe now st query).1.orders = st.orders ∧
    (handleVnpayReturn hmac cfg fe now st query).1.emailsSent = st.emailsSent := by
  have hbeq : (some rc == some "00") = false := by
    simp [hne]
  have hmain : handleVnpayReturn hmac cfg fe now st query =
      ({ st with histories := replaceFirstHistory st.histories oid (failedHistory ph rc) },
        .ok { success := false, redirectUrl := fe ++ "/payment/cancel?orderId=" ++ oid, message := "Payment failed" }) := by
    unfold handleVnpayReturn
    rw [hhash]
    dsimp only
    rw [if_neg (fun hx => hx rfl), htxn]
    dsimp only
    rw [hoid]
    dsimp only
    unfold reconcileVnpayReturn
    rw [hph, hrc]
    dsimp only
    rw [hbeq]
    rfl
  exact ⟨hmain, by rw [hmain], by rw [hmain]⟩

/-- Witness for C5: the signed code-24 callback (user cancelled) on the
fixture state turns the PENDING attempt into FAILED with reason
`VNPay error code: 24`, while orders and email counter stay put. -/
theorem C5_witness :
    handleVnpayReturn wHmac wCfg "fe" 7 wRst wQ24Signed =
      ({ wRst with histories := replaceFirstHistory wRst.histories "abc" (failedHistory wHist "24") },
        .ok { success := false, redirectUrl := "fe" ++ "/payment/cancel?orderId=" ++ "abc", message := "Payment failed" }) ∧
    (handleVnpayReturn wHmac wCfg "fe" 7 wRst wQ24Signed).1.orders = wRst.orders ∧
    (handleVnpayReturn wHmac wCfg "fe" 7 wRst wQ24Signed).1.emailsSent = wRst.emailsSent :=
  C5_failure_code_preserves_order wHmac wCfg "fe" 7 wRst wQ24Signed
    "20250101120000_abc" "abc" "24" wHist
    (by rfl) (by rfl) (by rfl) (by rfl) (by decide) (by rfl)

/-! ### C3 -/

/-- **C3.** Counter to the idempotency claim: replaying the identical
successful (`"00"`) verified callback through `handleVnpayReturn`
double-processes.  The first call completes the attempt and performs one
confirmation-email invocation; the second call finds the matched record
already COMPLETED, does not short-circuit, overwrites `completedAt`, and
invokes the email collaborator a second time — two invocations in total where
the claim requires exactly one. -/
theorem C3_replay_double_processes :
    (handleVnpayReturn wHmac wCfg "fe" 1 wRst wQokSigned).1.emailsSent = 1 ∧
    ((handleVnpayReturn wHmac wCfg "fe" 1 wRst wQokSigned).1.histories.map
        PaymentHistoryDoc.status = [PaymentStatus.COMPLETED]) ∧
    ((handleVnpayReturn wHmac wCfg "fe" 1 wRst wQokSigned).1.histories.map
        PaymentHistoryDoc.completedAt = [some 1]) ∧
    (handleVnpayReturn wHmac wCfg "fe" 2
        (handleVnpayReturn wHmac wCfg "fe" 1 wRst wQokSigned).1 wQokSigned).1.emailsSent
      = 2 ∧
    ((handleVnpayReturn wHmac wCfg "fe" 2
        (handleVnpayReturn wHmac wCfg "fe" 1 wRst wQokSigned).1 wQokSigned).1.histories.map
        PaymentHistoryDoc.completedAt = [some 2]) :=
  ⟨by decide, by decide, by decide, by decide, by decide⟩

/-! ### C2 -/

/-- Removing the two hash keys undoes appending the signature entry, provided
the payload itself carries no hash keys. -/
theorem strippedParams_append_hash (ps : List (String × String)) (v : String)
    (h1 : removeParam ps "vnp_SecureHash" = ps)
    (h2 : removeParam ps "vnp_SecureHashType" = ps) :
    strippedParams (ps ++ [("vnp_SecureHash", v)]) = ps := by
  unfold strippedParams
  unfold removeParam at h1 h2 ⊢
  rw [List.filter_append,
    show List.filter (fun kv => kv.1 != "vnp_SecureHash")
      [(("vnp_SecureHash" : String), v)] = [] from rfl,
    List.append_nil, h1, h2]

/-- Looking up the key appended at the end of a list that lacks it. -/
theorem lookupParam_append_self (ps : List (String × String)) (k v : String)
    (h : ps.find? (fun kv => kv.1 == k) = none) :
    lookupParam (ps ++ [(k, v)]) k = some v := by
  unfold lookupParam
  induction ps with
  | nil => simp [List.find?_cons]
  | cons a l ih =>
    by_cases hpa : (a.1 == k) = true
    · rw [List.find?_cons, hpa] at h
      cases h
    · have hb : (a.1 == k) = false := by simpa using hpa
      rw [List.find?_cons, hb] at h
      rw [List.cons_append, List.find?_cons, hb]
      exact ih h

/-- **C2.** Counter to the round-trip claim: `createVnpayPaymentUrl` signs the
raw `key=value` join of the sorted parameters while `handleVnpayReturn`
recomputes the signature over the `querystring.stringify` (URL-encoded)
serialization of those same parameters.  On the very parameter set the code
builds (the return URL contains `://`, the order info contains spaces) the
two serializations differ, so echoing the signed parameter set back into the
return handler fails signature verification for every collision-free HMAC:
outbound signing and inbound verification do not share one canonical
serialization. -/
theorem C2_sign_then_verify_fails (hmac : String → String → String) (st : ReconState)
    (hinj : ∀ m1 m2, hmac wCfg.hashSecret m1 = hmac wCfg.hashSecret m2 → m1 = m2) :
    rawSignData c2Params ≠ qsStringify c2Params ∧
    handleVnpayReturn hmac wCfg "fe" 1 st
        (createVnpayPaymentUrl hmac wCfg c2Order "20250101120000").1 =
      (st, .error "Payment verification failed: Invalid signature") := by
  have hneq : rawSignData c2Params ≠ qsStringify c2Params := by decide
  refine ⟨hneq, ?_⟩
  have hecho : (createVnpayPaymentUrl hmac wCfg c2Order "20250101120000").1 =
      c2Params ++ [("vnp_SecureHash", hmac wCfg.hashSecret (rawSignData c2Params))] := rfl
  rw [hecho]
  have hstrip : strippedParams (c2Params ++ [("vnp_SecureHash",
      hmac wCfg.hashSecret (rawSignData c2Params))]) = c2Params :=
    strippedParams_append_hash c2Params _ (by decide) (by decide)
  have hlook : lookupParam (c2Params ++ [("vnp_SecureHash",
      hmac wCfg.hashSecret (rawSignData c2Params))]) "vnp_SecureHash" =
      some (hmac wCfg.hashSecret (rawSignData c2Params)) :=
    lookupParam_append_self c2Params _ _ (by decide)
  have hsort : sortObject c2Params = c2Params := by decide
  have hcond : some (hmac wCfg.hashSecret (rawSignData c2Params)) ≠
      some (hmac wCfg.hashSecret (qsStringify (sortObject c2Params))) := by
    rw [hsort]
    intro hx
    exact hneq (hinj _ _ (Option.some.inj hx))
  unfold handleVnpayReturn
  rw [hlook, hstrip]
  dsimp only
  rw [if_pos hcond]

/-- Witness for C2, instantiating the HMAC stand-in with the function that
returns its message (injective in the message, so collision-free). -/
theorem C2_witness :
    rawSignData c2Params ≠ qsStringify c2Params ∧
    handleVnpayReturn (fun _ m => m) wCfg "fe" 1 wRst
        (createVnpayPaymentUrl (fun _ m => m) wCfg c2Order "20250101120000").1 =
      (wRst, .error "Payment verification failed: Invalid signature") :=
  C2_sign_then_verify_fails (fun _ m => m) wRst (fun _ _ h => h)

end KiddieKingdom
